import Mathlib

/-!
Shallow embedding of `dashboard.py` (Airbnb NYC Streamlit dashboard).

The file embeds, faithfully to the Python source:
* the helper `extract_min_max_from_price_ranges` (lines 21-31), including the
  order of effects inside its `try` block: `min_prices.append(int(parts[0]))`
  runs before `int(parts[1])` is evaluated, so a label whose second component
  is malformed still contributes its first component to `min_prices`;
* the top-level script flow: the guarded data load (lines 34-45, `st.error`
  followed by `st.stop()` on failure), the sidebar filters with the "All"
  sentinel mapped to the empty string (lines 60-70), the overview metrics
  computed from the unfiltered processor (lines 87-104), and the five tabs
  plus the filtered table, each of which renders an informational message when
  its data is `None` or empty (lines 115-217).

`DataProcessor` lives in `utils/data_processor.py`, which is not part of the
sources here; it is represented as an immutable record of query functions, and
where its internals decide a claim the behaviour is modelled from the spec.
Python exceptions are modelled with `Option`/`Except`: a raising computation
returns `none`/`.error`.
-/

namespace Dashboard

/-- Numeric value of a decimal digit character. -/
def digitVal (c : Char) : Nat := c.toNat - '0'.toNat

/-- Value of a nonempty all-digit character list, `none` otherwise.
Embeds the digits part of Python `int(str)` (underscore separators between
digits, which Python also accepts, are not modelled; no label in this
development uses them). -/
def digitsVal (cs : List Char) : Option Nat :=
  if cs ≠ [] ∧ cs.all Char.isDigit then
    some (cs.foldl (fun a c => a * 10 + digitVal c) 0)
  else none

/-- Leading and trailing whitespace removed, as Python `int` does before
parsing. -/
def trimWs (cs : List Char) : List Char :=
  ((cs.dropWhile Char.isWhitespace).reverse.dropWhile Char.isWhitespace).reverse

/-- Embedding of Python `int(s)` on a character list: optional surrounding
whitespace, an optional single sign, then a nonempty digit string; `none`
models a raised `ValueError`. -/
def pyInt (cs : List Char) : Option Int :=
  match trimWs cs with
  | '-' :: rest => (digitsVal rest).map (fun n => -(n : Int))
  | '+' :: rest => (digitsVal rest).map (fun n => (n : Int))
  | t => (digitsVal t).map (fun n => (n : Int))

/-- Embedding of Python `str.split(sep)` for a one-character separator:
`"".split` gives `[""]`, and separators at the ends produce empty parts. -/
def splitDash : List Char → List (List Char)
  | [] => [[]]
  | c :: cs =>
    if c = '-' then [] :: splitDash cs
    else
      match splitDash cs with
      | p :: ps => (c :: p) :: ps
      | [] => [[c]]

/-- Embeds `range_str.replace('$', '').split('-')` from line 26 of
`dashboard.py`: every dollar sign deleted, then split on every dash. -/
def parts (range_str : String) : List (List Char) :=
  splitDash (range_str.toList.filter (fun c => c ≠ '$'))

/-- Embeds one iteration of the loop in `extract_min_max_from_price_ranges`
(lines 24-30).  The accumulator is the pair `(min_prices, max_prices)`.
Mirrors the Python order of effects: `int(parts[0])` failing appends nothing;
once it succeeds its value is appended to `min_prices`, and only then is
`parts[1]` accessed (IndexError when missing) and parsed (ValueError when
malformed), either failure leaving `max_prices` untouched but `min_prices`
already extended. -/
def step (acc : List Int × List Int) (range_str : String) : List Int × List Int :=
  match parts range_str with
  | [] => acc
  | p0 :: rest =>
    match pyInt p0 with
    | none => acc
    | some a =>
      match rest with
      | [] => (acc.1 ++ [a], acc.2)
      | p1 :: _ =>
        match pyInt p1 with
        | none => (acc.1 ++ [a], acc.2)
        | some b => (acc.1 ++ [a], acc.2 ++ [b])

/-- Embedding of `extract_min_max_from_price_ranges` (lines 21-31 of
`dashboard.py`).  The loop builds `min_prices` and `max_prices`; the final
`return min(min_prices), max(max_prices)` raises `ValueError` when either
list is empty, modelled as `none`. -/
def extract_min_max_from_price_ranges (price_ranges : List String) : Option (Int × Int) :=
  let acc := price_ranges.foldl step ([], [])
  match acc.1.min?, acc.2.max? with
  | some m, some M => some (m, M)
  | _, _ => none

/-- Value that a label contributes to `min_prices`: its first dash-separated
component (after deleting dollar signs) when that parses as an integer. -/
def labelMin (range_str : String) : Option Int :=
  match parts range_str with
  | [] => none
  | p0 :: _ => pyInt p0

/-- Value that a label contributes to `max_prices`: its second dash-separated
component, provided the first component parses (so that the loop body reaches
`parts[1]`), the second component exists and it parses as an integer.  A label
with `(labelMax r).isSome` is exactly one that fully parses into two integer
bounds, i.e. a well-formed label. -/
def labelMax (range_str : String) : Option Int :=
  match parts range_str with
  | [] => none
  | [_] => none
  | p0 :: p1 :: _ =>
    match pyInt p0 with
    | none => none
    | some _ => pyInt p1

theorem step_eq (acc : List Int × List Int) (r : String) :
    step acc r = (acc.1 ++ (labelMin r).toList, acc.2 ++ (labelMax r).toList) := by
  unfold step labelMin labelMax
  cases hp : parts r with
  | nil => simp
  | cons p0 rest =>
    cases rest with
    | nil => cases h0 : pyInt p0 <;> simp [h0]
    | cons p1 tl =>
      cases h0 : pyInt p0 with
      | none => simp [h0]
      | some a => cases h1 : pyInt p1 <;> simp [h0, h1]

theorem foldl_step_eq (ranges : List String) (ms xs : List Int) :
    ranges.foldl step (ms, xs) =
      (ms ++ ranges.filterMap labelMin, xs ++ ranges.filterMap labelMax) := by
  induction ranges generalizing ms xs with
  | nil => simp
  | cons r rs ih =>
    rw [List.foldl_cons, step_eq, ih]
    cases h0 : labelMin r <;> cases h1 : labelMax r <;>
      simp [List.filterMap_cons, h0, h1]

/-- Characterisation of the embedded function in terms of the per-label
contributions. -/
theorem extract_eq (ranges : List String) :
    extract_min_max_from_price_ranges ranges =
      match (ranges.filterMap labelMin).min?, (ranges.filterMap labelMax).max? with
      | some m, some M => some (m, M)
      | _, _ => none := by
  unfold extract_min_max_from_price_ranges
  rw [foldl_step_eq]
  simp

theorem labelMin_isSome_of_labelMax (r : String) (h : labelMax r ≠ none) :
    labelMin r ≠ none := by
  unfold labelMin labelMax at *
  cases hp : parts r with
  | nil => simp [hp] at h
  | cons p0 rest =>
    cases rest with
    | nil => simp [hp] at h
    | cons p1 tl =>
      simp only [hp] at h ⊢
      cases h0 : pyInt p0 with
      | none => simp [h0] at h
      | some a => simp

theorem filterMap_labelMin_ne_nil (l : List String)
    (h : l.filterMap labelMax ≠ []) : l.filterMap labelMin ≠ [] := by
  intro hmin
  apply h
  rw [List.filterMap_eq_nil_iff] at hmin ⊢
  intro r hr
  by_contra hne
  exact labelMin_isSome_of_labelMax r hne (hmin r hr)

/-- C2: `extract_min_max_from_price_ranges ["$10-20", "$30-foo", "$5-15"]`
returns `min = 5` and `max = 20`; the malformed middle entry does not affect
this example because its parsed first component 30 exceeds the minimum 5. -/
theorem C2_example :
    extract_min_max_from_price_ranges ["$10-20", "$30-foo", "$5-15"] = some (5, 20) := by
  decide

/-- C1 counterexample: the list `["$30-foo", "$50-60"]` contains the
well-formed label `"$50-60"`, the label `"$30-foo"` is malformed (it does not
fully parse into two integer bounds), yet removing it changes the returned
pair from `(30, 60)` to `(50, 60)`: its parsed first component 30 was
contributing to the minimum. -/
theorem C1_counterexample :
    labelMax "$30-foo" = none ∧
    labelMax "$50-60" = some 60 ∧
    extract_min_max_from_price_ranges ["$30-foo", "$50-60"] = some (30, 60) ∧
    extract_min_max_from_price_ranges ["$50-60"] = some (50, 60) ∧
    extract_min_max_from_price_ranges ["$30-foo", "$50-60"] ≠
      extract_min_max_from_price_ranges ["$50-60"] := by
  decide

/-- C1 (amended): removing a malformed label (one that does not fully parse
into two integer bounds) never changes the max component of the result, and
when the malformed label's first dash-separated component also fails to parse
as an integer, removing it leaves the whole returned pair unchanged.  A
malformed label whose first component does parse still contributes that value
to the minimum. -/
theorem C1_remove_malformed (l₁ l₂ : List String) (x : String)
    (hmax : labelMax x = none) :
    (extract_min_max_from_price_ranges (l₁ ++ x :: l₂)).map Prod.snd =
      (extract_min_max_from_price_ranges (l₁ ++ l₂)).map Prod.snd ∧
    (labelMin x = none →
      extract_min_max_from_price_ranges (l₁ ++ x :: l₂) =
        extract_min_max_from_price_ranges (l₁ ++ l₂)) := by
  have hmaxeq : (l₁ ++ x :: l₂).filterMap labelMax = (l₁ ++ l₂).filterMap labelMax := by
    simp [List.filterMap_append, List.filterMap_cons, hmax]
  constructor
  · rw [extract_eq (l₁ ++ x :: l₂), extract_eq (l₁ ++ l₂), hmaxeq]
    cases hM : ((l₁ ++ l₂).filterMap labelMax).max? with
    | none =>
      cases hm1 : ((l₁ ++ x :: l₂).filterMap labelMin).min? <;>
        cases hm2 : ((l₁ ++ l₂).filterMap labelMin).min? <;> simp
    | some M =>
      have hmaxne : (l₁ ++ l₂).filterMap labelMax ≠ [] := by
        intro hnil
        rw [hnil] at hM
        simp at hM
      have hminR : (l₁ ++ l₂).filterMap labelMin ≠ [] :=
        filterMap_labelMin_ne_nil _ hmaxne
      have hsub : List.Sublist ((l₁ ++ l₂).filterMap labelMin)
          ((l₁ ++ x :: l₂).filterMap labelMin) :=
        List.Sublist.filterMap labelMin ((List.sublist_cons_self x l₂).append_left l₁)
      have hminL : (l₁ ++ x :: l₂).filterMap labelMin ≠ [] := by
        intro hnil
        exact hminR (List.sublist_nil.mp (hnil ▸ hsub))
      have hm1ne : ((l₁ ++ x :: l₂).filterMap labelMin).min? ≠ none := by
        simp only [ne_eq, List.min?_eq_none_iff]
        exact hminL
      have hm2ne : ((l₁ ++ l₂).filterMap labelMin).min? ≠ none := by
        simp only [ne_eq, List.min?_eq_none_iff]
        exact hminR
      obtain ⟨m1, hm1⟩ := Option.ne_none_iff_exists'.mp hm1ne
      obtain ⟨m2, hm2⟩ := Option.ne_none_iff_exists'.mp hm2ne
      rw [hm1, hm2]
      simp
  · intro hmin
    have hmineq : (l₁ ++ x :: l₂).filterMap labelMin = (l₁ ++ l₂).filterMap labelMin := by
      simp [List.filterMap_append, List.filterMap_cons, hmin]
    rw [extract_eq (l₁ ++ x :: l₂), extract_eq (l₁ ++ l₂), hmaxeq, hmineq]

/-- Witness for the amended C1 at a concrete input: removing the fully
unparseable label `"$foo-bar"` from `["$10-20", "$foo-bar"]` leaves the
result unchanged. -/
theorem C1_remove_malformed_witness :
    extract_min_max_from_price_ranges ["$10-20", "$foo-bar"] =
      extract_min_max_from_price_ranges ["$10-20"] :=
  (C1_remove_malformed ["$10-20"] [] "$foo-bar" (by decide)).2 (by decide)

/-- C3: whenever the set of parsed first components (over labels whose first
dash-separated component, after deleting dollar signs, parses as an integer)
has minimum `m`, and the set of parsed second components (over labels whose
first component parses and whose second component exists and parses) has
maximum `M`, the function returns `(m, M)`.  `labelMin` includes labels whose
second component is malformed or missing, so such labels still contribute
their first component to the minimum. -/
theorem C3_characterization (ranges : List String) (m M : Int)
    (hm : (ranges.filterMap labelMin).min? = some m)
    (hM : (ranges.filterMap labelMax).max? = some M) :
    extract_min_max_from_price_ranges ranges = some (m, M) := by
  rw [extract_eq, hm, hM]

/-- Witness for C3 at a concrete input; `"$30-foo"` has a malformed second
component yet its first component 30 is the returned minimum. -/
theorem C3_characterization_witness :
    extract_min_max_from_price_ranges ["$30-foo", "$40-50"] = some (30, 50) :=
  C3_characterization ["$30-foo", "$40-50"] 30 50 (by decide) (by decide)

/-- C4: the embedded `extract_min_max_from_price_ranges` fails (Python raises,
modelled as `none`) exactly when no label in the input parses successfully
into two integer bounds — in particular it fails on the empty list, and it
returns a value whenever at least one label fully parses. -/
theorem C4_failure_iff (ranges : List String) :
    extract_min_max_from_price_ranges ranges = none ↔
      ∀ r ∈ ranges, labelMax r = none := by
  rw [extract_eq]
  constructor
  · intro h r hr
    by_contra hne
    have hmaxne : ranges.filterMap labelMax ≠ [] := by
      intro hnil
      exact hne (List.filterMap_eq_nil_iff.mp hnil r hr)
    have hminne := filterMap_labelMin_ne_nil ranges hmaxne
    have hMne : (ranges.filterMap labelMax).max? ≠ none := by
      simp only [ne_eq, List.max?_eq_none_iff]
      exact hmaxne
    have hmne : (ranges.filterMap labelMin).min? ≠ none := by
      simp only [ne_eq, List.min?_eq_none_iff]
      exact hminne
    obtain ⟨M, hM⟩ := Option.ne_none_iff_exists'.mp hMne
    obtain ⟨m, hm⟩ := Option.ne_none_iff_exists'.mp hmne
    rw [hm, hM] at h
    simp at h
  · intro h
    have hnil : ranges.filterMap labelMax = [] := List.filterMap_eq_nil_iff.mpr h
    rw [hnil]
    cases hm : (ranges.filterMap labelMin).min? <;> simp

/-- Overview statistics dictionary returned by `DataProcessor.get_overview_stats`;
each field is optional because the dashboard reads the dictionary with
defaulting `get` calls (lines 89-92 of `dashboard.py`).  Averages are modelled
as rationals. -/
structure OverviewStats where
  total_listings : Option Nat
  avg_price : Option ℚ
  avg_reviews : Option ℚ
  neighborhoods : Option Nat
  deriving DecidableEq

/-- One listing record as delivered to the dashboard for the map view and the
filtered table. -/
structure Row where
  name : String
  neighbourhood_group : String
  room_type : String
  price : Int
  latitude : ℚ
  longitude : ℚ
  deriving DecidableEq

/-- Record of the `DataProcessor` query interface exactly as `dashboard.py`
calls it.  The class lives in `utils/data_processor.py`, which is not among
the sources; per the spec every derived structure is a pure function of the
immutable table, so the processor is an immutable value whose queries are
function-valued fields.  `Option` models methods that may return Python
`None`; chart data is a list of label/value pairs. -/
structure DataProcessor where
  get_neighborhood_groups : List String
  get_room_types : List String
  get_price_ranges : List String
  get_overview_stats : OverviewStats
  get_filtered_data : String → String → Int → Int → Option (List Row)
  get_price_by_neighborhood : String → String → Option (List (String × ℚ))
  get_room_type_distribution : String → Option (List (String × Nat))
  get_availability_data : String → String → Option (List (String × Nat))
  get_reviews_data : String → String → Option (List (String × Nat))
  get_location_data : String → String → Int → Int → Option (List Row)

/-- Raw sidebar selection: the two selectbox values and the price slider
bounds. -/
structure Selection where
  neighborhood_group : String
  room_type : String
  min_price : Int
  max_price : Int

/-- Embeds lines 64 and 70 of `dashboard.py`: the sentinel `"All"` chosen in a
selectbox is replaced by the empty string before any query runs. -/
def normalizeAll (s : String) : String := if s = "All" then "" else s

/-- What one dashboard slot shows: a chart or data table, or the
informational `st.info` message `"No data available for the selected
filters."`. -/
inductive View where
  | content
  | info
  deriving DecidableEq

/-- Embeds the guard pattern used for every tab and for the filtered table:
`if d and len(d) > 0:` render the chart/table `else:` show `st.info`.  A
`None` result and an empty list are both falsy in Python, so both render the
informational message. -/
def renderData {α : Type} (d : Option (List α)) : View :=
  match d with
  | none => View.info
  | some l => if l.length > 0 then View.content else View.info

/-- Everything the script renders after a successful load: the four Overview
metrics (lines 94-104) and the view chosen for each of the five tabs and the
filtered-listings table. -/
structure DashboardRender where
  overview_total_listings : Nat
  overview_avg_price : ℚ
  overview_avg_reviews : ℚ
  overview_neighborhoods : Nat
  tab1_price_analysis : View
  tab2_room_types : View
  tab3_availability : View
  tab4_reviews : View
  tab5_map : View
  filtered_table : View
  deriving DecidableEq

/-- Embeds the body of `dashboard.py` after a successful load (lines 48-217):
filters are normalized, the overview metrics come from the unfiltered
processor's `get_overview_stats` (line 87) with defaulting `get`, and each
tab plus the filtered table goes through the empty-data guard. -/
def renderDashboard (dp : DataProcessor) (sel : Selection) : DashboardRender :=
  let ng := normalizeAll sel.neighborhood_group
  let rt := normalizeAll sel.room_type
  let stats := dp.get_overview_stats
  { overview_total_listings := stats.total_listings.getD 0
    overview_avg_price := stats.avg_price.getD 0
    overview_avg_reviews := stats.avg_reviews.getD 0
    overview_neighborhoods := stats.neighborhoods.getD 0
    tab1_price_analysis := renderData (dp.get_price_by_neighborhood ng rt)
    tab2_room_types := renderData (dp.get_room_type_distribution ng)
    tab3_availability := renderData (dp.get_availability_data ng rt)
    tab4_reviews := renderData (dp.get_reviews_data ng rt)
    tab5_map := renderData (dp.get_location_data ng rt sel.min_price sel.max_price)
    filtered_table := renderData (dp.get_filtered_data ng rt sel.min_price sel.max_price) }

/-- Output of one script run: either the blocking error path (lines 41-45,
`st.error` followed by `st.stop()`, which halts the script before any filter,
metric, chart or table is rendered) or the fully rendered page. -/
inductive ScriptOutput where
  | fatal
  | page (render : DashboardRender)

/-- Embeds the top-level control flow of `dashboard.py`: the `try` block
around the data load (lines 34-45) and everything after it.  A raising load
is an `Except.error`. -/
def runDashboard (load : Except String DataProcessor) (sel : Selection) : ScriptOutput :=
  match load with
  | Except.error _ => ScriptOutput.fatal
  | Except.ok dp => ScriptOutput.page (renderDashboard dp sel)

/-- A query result that is falsy in the Python guards: `None` or an empty
list. -/
def emptyData {α : Type} (d : Option (List α)) : Prop :=
  d = none ∨ d = some []

theorem renderData_of_emptyData {α : Type} (d : Option (List α))
    (h : emptyData d) : renderData d = View.info := by
  rcases h with h | h <;> rw [h] <;> rfl

/-- C5: the four Overview metrics are computed from the unfiltered processor
(`data_processor.get_overview_stats()` at line 87, not the filtered result of
line 82), so any two filter selections render identical Overview metrics. -/
theorem C5_overview_filter_independent (dp : DataProcessor) (sel sel₂ : Selection) :
    (renderDashboard dp sel).overview_total_listings =
      (renderDashboard dp sel₂).overview_total_listings ∧
    (renderDashboard dp sel).overview_avg_price =
      (renderDashboard dp sel₂).overview_avg_price ∧
    (renderDashboard dp sel).overview_avg_reviews =
      (renderDashboard dp sel₂).overview_avg_reviews ∧
    (renderDashboard dp sel).overview_neighborhoods =
      (renderDashboard dp sel₂).overview_neighborhoods :=
  ⟨rfl, rfl, rfl, rfl⟩

/-- C6: whenever a query result delivered to the dashboard under the current
selection is empty (`None` or of length zero), the corresponding view — each
of the five tabs and the filtered table — is the informational message, not a
chart or table.  All renderings are total functions, so nothing raises. -/
theorem C6_empty_shows_info (dp : DataProcessor) (sel : Selection) :
    (emptyData (dp.get_price_by_neighborhood (normalizeAll sel.neighborhood_group)
        (normalizeAll sel.room_type)) →
      (renderDashboard dp sel).tab1_price_analysis = View.info) ∧
    (emptyData (dp.get_room_type_distribution (normalizeAll sel.neighborhood_group)) →
      (renderDashboard dp sel).tab2_room_types = View.info) ∧
    (emptyData (dp.get_availability_data (normalizeAll sel.neighborhood_group)
        (normalizeAll sel.room_type)) →
      (renderDashboard dp sel).tab3_availability = View.info) ∧
    (emptyData (dp.get_reviews_data (normalizeAll sel.neighborhood_group)
        (normalizeAll sel.room_type)) →
      (renderDashboard dp sel).tab4_reviews = View.info) ∧
    (emptyData (dp.get_location_data (normalizeAll sel.neighborhood_group)
        (normalizeAll sel.room_type) sel.min_price sel.max_price) →
      (renderDashboard dp sel).tab5_map = View.info) ∧
    (emptyData (dp.get_filtered_data (normalizeAll sel.neighborhood_group)
        (normalizeAll sel.room_type) sel.min_price sel.max_price) →
      (renderDashboard dp sel).filtered_table = View.info) :=
  ⟨fun h => renderData_of_emptyData _ h, fun h => renderData_of_emptyData _ h,
   fun h => renderData_of_emptyData _ h, fun h => renderData_of_emptyData _ h,
   fun h => renderData_of_emptyData _ h, fun h => renderData_of_emptyData _ h⟩

/-- Concrete processor whose every query delivers an empty result (`None` for
some, an empty list for others), used to witness the empty-data claim. -/
def emptyProcessor : DataProcessor where
  get_neighborhood_groups := []
  get_room_types := []
  get_price_ranges := ["$0-100"]
  get_overview_stats := ⟨none, none, none, none⟩
  get_filtered_data := fun _ _ _ _ => some []
  get_price_by_neighborhood := fun _ _ => none
  get_room_type_distribution := fun _ => some []
  get_availability_data := fun _ _ => none
  get_reviews_data := fun _ _ => some []
  get_location_data := fun _ _ _ _ => none

/-- Witness for C6 at a concrete processor and selection. -/
theorem C6_empty_shows_info_witness :
    (renderDashboard emptyProcessor ⟨"All", "All", 0, 100⟩).tab1_price_analysis = View.info ∧
    (renderDashboard emptyProcessor ⟨"All", "All", 0, 100⟩).tab2_room_types = View.info ∧
    (renderDashboard emptyProcessor ⟨"All", "All", 0, 100⟩).tab3_availability = View.info ∧
    (renderDashboard emptyProcessor ⟨"All", "All", 0, 100⟩).tab4_reviews = View.info ∧
    (renderDashboard emptyProcessor ⟨"All", "All", 0, 100⟩).tab5_map = View.info ∧
    (renderDashboard emptyProcessor ⟨"All", "All", 0, 100⟩).filtered_table = View.info := by
  have h := C6_empty_shows_info emptyProcessor ⟨"All", "All", 0, 100⟩
  exact ⟨h.1 (Or.inl rfl), h.2.1 (Or.inr rfl), h.2.2.1 (Or.inl rfl),
    h.2.2.2.1 (Or.inr rfl), h.2.2.2.2.1 (Or.inl rfl), h.2.2.2.2.2 (Or.inr rfl)⟩

/-- C7: when constructing the data processor raises, the script output is the
blocking error alone — it is never a rendered page, so no filter, metric,
chart or table appears. -/
theorem C7_load_failure_blocks (msg : String) (sel : Selection) :
    runDashboard (Except.error msg) sel = ScriptOutput.fatal ∧
    ∀ r : DashboardRender, runDashboard (Except.error msg) sel ≠ ScriptOutput.page r := by
  refine ⟨rfl, ?_⟩
  intro r h
  cases h

/-- C8: the sentinel `"All"` in either selectbox is mapped to the empty
string before the queries run, so the entire rendered page under `"All"`
equals the page under an empty selection for that filter. -/
theorem C8_all_sentinel (dp : DataProcessor) (g t : String) (lo hi : Int) :
    normalizeAll "All" = "" ∧
    renderDashboard dp ⟨"All", t, lo, hi⟩ = renderDashboard dp ⟨"", t, lo, hi⟩ ∧
    renderDashboard dp ⟨g, "All", lo, hi⟩ = renderDashboard dp ⟨g, "", lo, hi⟩ := by
  refine ⟨rfl, ?_, ?_⟩ <;> simp [renderDashboard, normalizeAll]

/-- Modelled from the spec: the body of `DataProcessor.get_filtered_data`
lives in `utils/data_processor.py`, which is not among the sources.  Spec
section 4.2: a record passes when every active predicate holds; an empty or
`"All"` categorical selection imposes no restriction on that column; the
numeric price range is inclusive on both ends; predicates combine by logical
AND. -/
def rowMatches (ng rt : String) (lo hi : Int) (r : Row) : Bool :=
  (ng == "" || ng == "All" || r.neighbourhood_group == ng) &&
  (rt == "" || rt == "All" || r.room_type == rt) &&
  (decide (lo ≤ r.price) && decide (r.price ≤ hi))

/-- Modelled from the spec: `filter(table, filterSpec) -> Table` returns a
new Table containing exactly the records satisfying every active predicate,
in their original order. -/
def get_filtered_data (table : List Row) (ng rt : String) (lo hi : Int) : List Row :=
  table.filter (rowMatches ng rt lo hi)

/-- C9: for every filter specification and every input table, the filtered
output is a sublist of the input — a subset of its records in their original
relative order. -/
theorem C9_filter_sublist (table : List Row) (ng rt : String) (lo hi : Int) :
    List.Sublist (get_filtered_data table ng rt lo hi) table ∧
    ∀ r ∈ get_filtered_data table ng rt lo hi, r ∈ table := by
  refine ⟨List.filter_sublist table, ?_⟩
  intro r hr
  exact List.mem_of_mem_filter hr

/-- Modelled semantics of the `@st.cache_data` decorator applied to
`load_data` (lines 35-37): the first call in a session computes the processor
and stores it; every later call returns the stored value.  The final `Nat`
counts loader executions (CSV reads) performed by the call. -/
def cachedLoad (loader : Unit → DataProcessor) (cache : Option DataProcessor) :
    DataProcessor × Option DataProcessor × Nat :=
  match cache with
  | some dp => (dp, some dp, 0)
  | none => (loader (), some (loader ()), 1)

/-- A session of `n` script reruns (one per filter interaction), each calling
the cached loader; returns the final cache state and the total number of
loader executions. -/
def runSession (loader : Unit → DataProcessor) : Nat → Option DataProcessor × Nat
  | 0 => (none, 0)
  | n + 1 =>
    let prev := runSession loader n
    let cur := cachedLoad loader prev.1
    (cur.2.1, prev.2 + cur.2.2)

theorem runSession_eq (loader : Unit → DataProcessor) (n : Nat) :
    runSession loader n = if n = 0 then (none, 0) else (some (loader ()), 1) := by
  induction n with
  | zero => rfl
  | succ m ih =>
    simp only [runSession, ih]
    cases m with
    | zero => simp [cachedLoad]
    | succ k => simp [cachedLoad]

/-- C10: over any number of filter interactions in a session, the loader runs
at most once, and from the first interaction on the cache holds the loaded
processor, which every subsequent interaction reuses. -/
theorem C10_load_once (loader : Unit → DataProcessor) (n : Nat) :
    (runSession loader n).2 ≤ 1 ∧
    (runSession loader (n + 1)).1 = some (loader ()) := by
  rw [runSession_eq, runSession_eq]
  cases n with
  | zero => simp
  | succ m => simp

end Dashboard
